import Mathlib

/-!
Verification of the pyxem detector-geometry registry (`pyxem/detectors/__init__.py`)
and of the build manifest (`setup.py`).

The three detector class files imported by `pyxem/detectors/__init__.py`
(`generic_flat_detector.py`, `medipix_256x256.py`, `medipix_515x515.py`) are not
part of the provided sources; the descriptor values and the lookup surface are
modelled from the specification's data model and registry contract.  The build
manifest `setup.py` is present and is embedded directly.
-/

/-- Modelled from the spec: the detector class files are missing from the
sources, so the `DetectorGeometry` value type is taken from the spec's data
model — pixel counts (integers), pixel sizes (positive reals, embedded as
rationals), and two optional opaque references. -/
structure DetectorGeometry where
  pixel_count_x : Nat
  pixel_count_y : Nat
  pixel_size_x : ℚ
  pixel_size_y : ℚ
  spline_distortion_reference : Option String
  mask_reference : Option String
deriving DecidableEq, Repr

/-- Modelled from the spec: `generic_flat_detector.py` is missing; the Generic
Flat variant is a concrete instantiation of the attribute set.  The spec gives
no literal constants for it, so it is modelled as a unit grid with unit pixel
pitch and no spline or mask reference. -/
def GenericFlatDetector : DetectorGeometry :=
  { pixel_count_x := 1
    pixel_count_y := 1
    pixel_size_x := 1
    pixel_size_y := 1
    spline_distortion_reference := none
    mask_reference := none }

/-- Modelled from the spec: `medipix_256x256.py` is missing; the spec documents
a 256×256 pixel grid for this hardware model.  The pixel pitch is the Medipix
hardware constant 55 µm (55/1000000 m). -/
def Medipix256x256Detector : DetectorGeometry :=
  { pixel_count_x := 256
    pixel_count_y := 256
    pixel_size_x := 55 / 1000000
    pixel_size_y := 55 / 1000000
    spline_distortion_reference := none
    mask_reference := none }

/-- Modelled from the spec: `medipix_515x515.py` is missing; the spec documents
a 515×515 pixel grid for this hardware model.  The pixel pitch is the Medipix
hardware constant 55 µm (55/1000000 m). -/
def Medipix515x515Detector : DetectorGeometry :=
  { pixel_count_x := 515
    pixel_count_y := 515
    pixel_size_x := 55 / 1000000
    pixel_size_y := 55 / 1000000
    spline_distortion_reference := none
    mask_reference := none }

/-- The closed enumeration of valid registry names, in the order the spec
lists them. -/
def detectorNames : List String :=
  ["generic_flat", "medipix_256x256", "medipix_515x515"]

/-- Modelled from the spec: the registry table mapping each of the three
closed-enumeration names to its descriptor value, in the stable order of
`pyxem/detectors/__init__.py`. -/
def detectorRegistry : List (String × DetectorGeometry) :=
  [("generic_flat", GenericFlatDetector),
   ("medipix_256x256", Medipix256x256Detector),
   ("medipix_515x515", Medipix515x515Detector)]

/-- The registry's only failure mode: a lookup key outside the closed
enumeration. -/
inductive RegistryError where
  | UnknownDetectorName : String → RegistryError
deriving DecidableEq, Repr

/-- Table lookup in a registry table: first pair whose key equals the
requested name, error otherwise. -/
def lookupIn (table : List (String × DetectorGeometry)) (name : String) :
    Except RegistryError DetectorGeometry :=
  match table.find? (fun p => p.1 == name) with
  | some p => Except.ok p.2
  | none => Except.error (RegistryError.UnknownDetectorName name)

/-- Modelled from the spec: `get(name)` — the registry's lookup operation;
the unknown-name error is surfaced immediately, never defaulted. -/
def get (name : String) : Except RegistryError DetectorGeometry :=
  lookupIn detectorRegistry name

/-- Modelled from the spec: the enumeration-listing operation, exposing the
closed set of valid names. -/
def listNames : List String := detectorRegistry.map Prod.fst

/-- The `__all__` export list of `pyxem/detectors/__init__.py`, verbatim. -/
def all_exports : List String :=
  ["GenericFlatDetector", "Medipix256x256Detector", "Medipix515x515Detector"]

/-- The registry's state: its table of named descriptors. -/
def RegistryState : Type := List (String × DetectorGeometry)

/-- The two operations the registry exposes: lookup by name and enumeration
listing. -/
inductive RegistryOp where
  | get : String → RegistryOp
  | listNames : RegistryOp
deriving DecidableEq, Repr

/-- The observable output of a registry operation. -/
inductive RegistryOutput where
  | result : Except RegistryError DetectorGeometry → RegistryOutput
  | names : List String → RegistryOutput

/-- Modelled from the spec: running one exposed operation against the registry
state, returning its output and the resulting state.  Both operations are pure
reads of the table. -/
def runOp (s : RegistryState) : RegistryOp → RegistryOutput × RegistryState
  | RegistryOp.get n => (RegistryOutput.result (lookupIn s n), s)
  | RegistryOp.listNames => (RegistryOutput.names (s.map Prod.fst), s)

/-- Running a sequence of exposed operations from a state, keeping the final
state. -/
def runOps (s : RegistryState) : List RegistryOp → RegistryState
  | [] => s
  | op :: rest => runOps (runOp s op).2 rest

/-- Serialize a descriptor to its field tuple. -/
def DetectorGeometry.toTuple (g : DetectorGeometry) :
    Nat × Nat × ℚ × ℚ × Option String × Option String :=
  (g.pixel_count_x, g.pixel_count_y, g.pixel_size_x, g.pixel_size_y,
   g.spline_distortion_reference, g.mask_reference)

/-- Reconstruct a descriptor from its field tuple. -/
def DetectorGeometry.ofTuple :
    Nat × Nat × ℚ × ℚ × Option String × Option String → DetectorGeometry
  | (a, b, c, d, e, f) =>
    { pixel_count_x := a
      pixel_count_y := b
      pixel_size_x := c
      pixel_size_y := d
      spline_distortion_reference := e
      mask_reference := f }

/-- The `install_requires` list of `setup.py`, verbatim (each element is one
requirement string of the manifest). -/
def install_requires : List String :=
  ["dask",
   "diffsims       ~= 0.4",
   "hyperspy       >= 1.7.0",
   "ipywidgets",
   "lmfit          >= 0.9.12",
   "matplotlib     >= 3.1.1",
   "numba",
   "numpy",
   "orix           >= 0.3",
   "psutil",
   "pyfai",
   "scikit-image   >= 0.17.0",
   "scikit-learn   >= 0.19",
   "scipy",
   "transforms3d"]

/-- The package metadata `setup.py` passes to `setup(...)`: the fields the
claims are about, with the literal arguments of the call embedded verbatim. -/
structure SetupManifest where
  name : String
  version : String
  description : String
  author : String
  author_email : String
  license : String
  url : String
  long_description : String
  install_requires : List String
  python_requires : String
  entry_points : List (String × List String)
deriving DecidableEq, Repr

/-- The names that `exec(open("pyxem/release_info.py").read())` must define for
the `setup(...)` call to evaluate: each is `some` value when the executed file
defines it and `none` otherwise. -/
structure ReleaseInfo where
  name : Option String
  version : Option String
  author : Option String
  email : Option String
  license : Option String
deriving DecidableEq, Repr

/-- The file-system environment `setup.py` reads: `pyxem/release_info.py`
(as the names its execution defines) and `README.rst` (as its text); `none`
means the file is absent. -/
structure SetupEnv where
  release_info_file : Option ReleaseInfo
  readme_file : Option String
deriving DecidableEq, Repr

/-- The errors evaluation of `setup.py` can raise before registration: a
missing file, or a name the executed release-info file failed to define. -/
inductive SetupError where
  | FileNotFound : String → SetupError
  | NameError : String → SetupError
deriving DecidableEq, Repr

/-- Build the manifest from the release-info names and the README text, with
the literal arguments of the `setup(...)` call. -/
def mkManifest (nm ver auth em lic readme : String) : SetupManifest :=
  { name := nm
    version := ver
    description := "multi-dimensional diffraction microscopy"
    author := auth
    author_email := em
    license := lic
    url := "https://github.com/pyxem/pyxem"
    long_description := readme
    install_requires := install_requires
    python_requires := ">=3.7"
    entry_points := [("hyperspy.extensions", ["pyxem = pyxem"])] }

/-- The value the bare name `license` evaluates to when the executed
release-info file does not define it: CPython's `site` module installs
`builtins.license` (a `_sitebuiltins._Printer`), so the name resolves to that
builtin instead of raising `NameError`.  Embedded as its display text. -/
def builtins_license : String := "Type license() to see the full license text"

/-- Evaluation of `setup.py`: first `exec(open("pyxem/release_info.py").read())`
(fails if the file is absent); then the arguments of `setup(...)` are evaluated
in textual order — `name`, `version`, `author`, `email` (a `NameError` at the
first one the executed file did not define), `license` (which never raises:
an undefined `license` resolves to `builtins.license` installed by CPython's
`site` module), then `open("README.rst").read()` (fails if absent) — and only
then is the manifest with its entry point produced. -/
def runSetup (env : SetupEnv) : Except SetupError SetupManifest :=
  match env.release_info_file with
  | none => Except.error (SetupError.FileNotFound "pyxem/release_info.py")
  | some ri =>
    match ri.name with
    | none => Except.error (SetupError.NameError "name")
    | some nm =>
      match ri.version with
      | none => Except.error (SetupError.NameError "version")
      | some ver =>
        match ri.author with
        | none => Except.error (SetupError.NameError "author")
        | some auth =>
          match ri.email with
          | none => Except.error (SetupError.NameError "email")
          | some em =>
            match env.readme_file with
            | none => Except.error (SetupError.FileNotFound "README.rst")
            | some readme =>
              Except.ok
                (mkManifest nm ver auth em (ri.license.getD builtins_license) readme)

/-- Closed-form characterization of `get`: table lookup resolves each of the
three known names to its descriptor and every other name to the
unknown-detector-name error. -/
theorem get_eq (name : String) :
    get name =
      if name = "generic_flat" then Except.ok GenericFlatDetector
      else if name = "medipix_256x256" then Except.ok Medipix256x256Detector
      else if name = "medipix_515x515" then Except.ok Medipix515x515Detector
      else Except.error (RegistryError.UnknownDetectorName name) := by
  by_cases h1 : name = "generic_flat"
  · subst h1; rfl
  · by_cases h2 : name = "medipix_256x256"
    · subst h2; rfl
    · by_cases h3 : name = "medipix_515x515"
      · subst h3; rfl
      · have e1 : ("generic_flat" == name) = false :=
          beq_eq_false_iff_ne.mpr fun e => h1 e.symm
        have e2 : ("medipix_256x256" == name) = false :=
          beq_eq_false_iff_ne.mpr fun e => h2 e.symm
        have e3 : ("medipix_515x515" == name) = false :=
          beq_eq_false_iff_ne.mpr fun e => h3 e.symm
        simp only [if_neg h1, if_neg h2, if_neg h3]
        show lookupIn detectorRegistry name =
          Except.error (RegistryError.UnknownDetectorName name)
        simp [lookupIn, detectorRegistry, List.find?, e1, e2, e3]

/-- C1: for every string key, `get name` returns a descriptor value if and
only if `name` is one of the three known names; for every other key it fails
with the `UnknownDetectorName` error carrying that key, producing no partial
or default value. -/
theorem claim_C1_get_closed_enumeration (name : String) :
    ((∃ g, get name = Except.ok g) ↔ name ∈ detectorNames) ∧
    (name ∉ detectorNames →
      get name = Except.error (RegistryError.UnknownDetectorName name)) := by
  rw [get_eq name]
  by_cases h1 : name = "generic_flat"
  · subst h1; simp [detectorNames]
  · by_cases h2 : name = "medipix_256x256"
    · subst h2; simp [detectorNames]
    · by_cases h3 : name = "medipix_515x515"
      · subst h3; simp [detectorNames]
      · simp [detectorNames, h1, h2, h3]

/-- Witness for C1 at the spec's concrete example key. -/
theorem claim_C1_witness :
    get "nonexistent_detector" =
      Except.error (RegistryError.UnknownDetectorName "nonexistent_detector") :=
  (claim_C1_get_closed_enumeration "nonexistent_detector").2 (by decide)

/-- C2: the enumeration-listing operation returns exactly the three valid
names, in a fixed deterministic order, with no duplicate entries. -/
theorem claim_C2_listNames_exact :
    listNames = ["generic_flat", "medipix_256x256", "medipix_515x515"] ∧
    listNames.Nodup := by decide

/-- C3: each of the three named lookups returns its documented descriptor —
in particular the Medipix variants have 256×256 and 515×515 pixel grids —
and every descriptor in the registry has pixel counts at least 1 and strictly
positive pixel sizes. -/
theorem claim_C3_field_constants :
    get "generic_flat" = Except.ok GenericFlatDetector ∧
    get "medipix_256x256" = Except.ok Medipix256x256Detector ∧
    get "medipix_515x515" = Except.ok Medipix515x515Detector ∧
    (Medipix256x256Detector.pixel_count_x = 256 ∧
     Medipix256x256Detector.pixel_count_y = 256 ∧
     Medipix256x256Detector.pixel_size_x = 55 / 1000000 ∧
     Medipix256x256Detector.pixel_size_y = 55 / 1000000) ∧
    (Medipix515x515Detector.pixel_count_x = 515 ∧
     Medipix515x515Detector.pixel_count_y = 515 ∧
     Medipix515x515Detector.pixel_size_x = 55 / 1000000 ∧
     Medipix515x515Detector.pixel_size_y = 55 / 1000000) ∧
    (GenericFlatDetector.pixel_count_x = 1 ∧
     GenericFlatDetector.pixel_count_y = 1 ∧
     GenericFlatDetector.pixel_size_x = 1 ∧
     GenericFlatDetector.pixel_size_y = 1) ∧
    (∀ p ∈ detectorRegistry,
      1 ≤ p.2.pixel_count_x ∧ 1 ≤ p.2.pixel_count_y ∧
      0 < p.2.pixel_size_x ∧ 0 < p.2.pixel_size_y) := by
  refine ⟨rfl, rfl, rfl, ⟨rfl, rfl, rfl, rfl⟩, ⟨rfl, rfl, rfl, rfl⟩,
    ⟨rfl, rfl, rfl, rfl⟩, ?_⟩
  intro p hp
  fin_cases hp <;>
    norm_num [GenericFlatDetector, Medipix256x256Detector, Medipix515x515Detector]

/-- C4: lookup is idempotent and deterministic — two calls of `get` with the
same known key return field-for-field identical descriptors. -/
theorem claim_C4_get_idempotent (name : String) (_hmem : name ∈ detectorNames)
    (g1 g2 : DetectorGeometry)
    (h1 : get name = Except.ok g1) (h2 : get name = Except.ok g2) :
    g1 = g2 ∧ g1.toTuple = g2.toTuple := by
  have h := Except.ok.inj (h1.symm.trans h2)
  exact ⟨h, by rw [h]⟩

/-- Witness for C4 at the key `"medipix_256x256"`. -/
theorem claim_C4_witness :
    Medipix256x256Detector = Medipix256x256Detector ∧
    Medipix256x256Detector.toTuple = Medipix256x256Detector.toTuple :=
  claim_C4_get_idempotent "medipix_256x256" (by decide)
    Medipix256x256Detector Medipix256x256Detector rfl rfl

/-- C5: the three named lookups each succeed, and the three returned
descriptors are pairwise distinct — in particular no two of them share the
same pixel-count and pixel-size tuple. -/
theorem claim_C5_distinct_descriptors :
    get "generic_flat" = Except.ok GenericFlatDetector ∧
    get "medipix_256x256" = Except.ok Medipix256x256Detector ∧
    get "medipix_515x515" = Except.ok Medipix515x515Detector ∧
    GenericFlatDetector ≠ Medipix256x256Detector ∧
    GenericFlatDetector ≠ Medipix515x515Detector ∧
    Medipix256x256Detector ≠ Medipix515x515Detector ∧
    (GenericFlatDetector.pixel_count_x, GenericFlatDetector.pixel_count_y,
     GenericFlatDetector.pixel_size_x, GenericFlatDetector.pixel_size_y) ≠
      (Medipix256x256Detector.pixel_count_x, Medipix256x256Detector.pixel_count_y,
       Medipix256x256Detector.pixel_size_x, Medipix256x256Detector.pixel_size_y) ∧
    (GenericFlatDetector.pixel_count_x, GenericFlatDetector.pixel_count_y,
     GenericFlatDetector.pixel_size_x, GenericFlatDetector.pixel_size_y) ≠
      (Medipix515x515Detector.pixel_count_x, Medipix515x515Detector.pixel_count_y,
       Medipix515x515Detector.pixel_size_x, Medipix515x515Detector.pixel_size_y) ∧
    (Medipix256x256Detector.pixel_count_x, Medipix256x256Detector.pixel_count_y,
     Medipix256x256Detector.pixel_size_x, Medipix256x256Detector.pixel_size_y) ≠
      (Medipix515x515Detector.pixel_count_x, Medipix515x515Detector.pixel_count_y,
       Medipix515x515Detector.pixel_size_x, Medipix515x515Detector.pixel_size_y) :=
  ⟨rfl, rfl, rfl, by decide, by decide, by decide, by decide, by decide, by decide⟩

/-- C6: the registry is read-only — every exposed operation leaves the state
it runs against unchanged, so any sequence of exposed operations leaves the
registry in its single populated initial state. -/
theorem claim_C6_registry_read_only (s : RegistryState) (op : RegistryOp)
    (ops : List RegistryOp) :
    (runOp s op).2 = s ∧ runOps detectorRegistry ops = detectorRegistry := by
  have hstep : ∀ (t : RegistryState) (o : RegistryOp), (runOp t o).2 = t := by
    intro t o; cases o <;> rfl
  refine ⟨hstep s op, ?_⟩
  induction ops with
  | nil => rfl
  | cons o rest ih =>
      show runOps (runOp detectorRegistry o).2 rest = detectorRegistry
      rw [hstep detectorRegistry o]
      exact ih

/-- C7: serializing a descriptor to its field tuple and reconstructing from
that tuple yields a descriptor equal in all fields to the original. -/
theorem claim_C7_tuple_roundtrip (g : DetectorGeometry) :
    DetectorGeometry.ofTuple (DetectorGeometry.toTuple g) = g := rfl

/-- C8: whenever evaluation of the build manifest succeeds, the produced
metadata declares the entry point `"pyxem = pyxem"` under the host's
`"hyperspy.extensions"` extension group. -/
theorem claim_C8_entry_point (env : SetupEnv) (m : SetupManifest)
    (h : runSetup env = Except.ok m) :
    m.entry_points = [("hyperspy.extensions", ["pyxem = pyxem"])] := by
  unfold runSetup at h
  repeat' split at h
  all_goals first
    | exact Except.noConfusion h
    | (injection h with h; subst h; rfl)

/-- Witness for C8 at a concrete complete environment. -/
theorem claim_C8_witness :
    (mkManifest "pyxem" "0.14.0" "devs" "dev@pyxem" "GPLv3" "readme").entry_points =
      [("hyperspy.extensions", ["pyxem = pyxem"])] :=
  claim_C8_entry_point
    ⟨some ⟨some "pyxem", some "0.14.0", some "devs", some "dev@pyxem", some "GPLv3"⟩,
     some "readme"⟩
    (mkManifest "pyxem" "0.14.0" "devs" "dev@pyxem" "GPLv3" "readme") rfl

/-- C9: the manifest produced by the `setup(...)` call always lists `"pyfai"`
among `install_requires` and restricts installation with
`python_requires = ">=3.7"`, whatever the release info and README contain. -/
theorem claim_C9_pyfai_dependency (nm ver auth em lic rd : String) :
    "pyfai" ∈ (mkManifest nm ver auth em lic rd).install_requires ∧
    (mkManifest nm ver auth em lic rd).python_requires = ">=3.7" := by
  constructor
  · show "pyfai" ∈ install_requires
    decide
  · rfl

/-- C10 counterexample: a release-info file that defines `name`, `version`,
`author` and `email` but not `license` does not make the setup step fail —
`license` resolves to the `builtins.license` object installed by CPython's
`site` module, and evaluation registers the metadata and entry point. -/
theorem claim_C10_counterexample :
    (ReleaseInfo.license
      ⟨some "pyxem", some "0.14.0", some "devs", some "dev@pyxem", none⟩) = none ∧
    runSetup
      ⟨some ⟨some "pyxem", some "0.14.0", some "devs", some "dev@pyxem", none⟩,
       some "readme"⟩ =
      Except.ok
        (mkManifest "pyxem" "0.14.0" "devs" "dev@pyxem" builtins_license "readme") :=
  ⟨rfl, rfl⟩

/-- C10 (amended): evaluation of the build manifest succeeds — producing
registered metadata — exactly when `pyxem/release_info.py` exists and defines
all of `name`, `version`, `author`, `email`, and `README.rst` exists;
otherwise it stops with an error and produces no manifest.  A missing
`license` alone does not cause failure, since the name falls back to the
`builtins.license` object. -/
theorem claim_C10_setup_io_preconditions (env : SetupEnv) :
    (∃ m, runSetup env = Except.ok m) ↔
      ((∃ ri, env.release_info_file = some ri ∧ ri.name.isSome = true ∧
        ri.version.isSome = true ∧ ri.author.isSome = true ∧
        ri.email.isSome = true) ∧
       env.readme_file.isSome = true) := by
  rcases env with ⟨rinfo, rd⟩
  cases rinfo with
  | none => simp [runSetup]
  | some r =>
    rcases r with ⟨n, v, a, e, l⟩
    cases n <;> cases v <;> cases a <;> cases e <;> cases rd <;>
      simp [runSetup]
